import Mathlib

/-!
Verification of the conversation-orchestration backend
(`python-backend/api.py`, `python-backend/main.py`,
`python-backend/shared_types.py`).

The Python code is shallowly embedded: every dispatch rule, guardrail and
formatting string is transcribed from the source.  The external database
client (`database.py`, an excluded collaborator) is modelled as a record of
pure functions, and every tool invocation additionally records the backend
call it performs so that claims about which query ran (and with which
parameters) are directly expressible.  Python `in` on strings becomes
substring containment over character lists; `str.lower`, `str.strip` and
`str.split` are modelled character-by-character for the ASCII texts the
code manipulates.
-/

namespace ConferenceBackend

/-! ### Primitive string operations (models of Python `str` methods) -/

/-- Model of Python `str.lower()` (ASCII case folding, which is all the
source's vocabulary uses). -/
def lowerString (s : String) : String :=
  String.mk (s.data.map Char.toLower)

/-- Characters stripped by Python `str.strip()` with no argument
(the whitespace actually occurring in chat messages). -/
def isSpaceChar (c : Char) : Bool :=
  c = ' ' || c = '\t' || c = '\n' || c = '\r'

/-- Model of Python `str.strip()`. -/
def stripString (s : String) : String :=
  String.mk (((s.data.dropWhile isSpaceChar).reverse.dropWhile isSpaceChar).reverse)

/-- `charsPrefixOf p l` decides `p <+: l`. -/
def charsPrefixOf : List Char → List Char → Bool
  | [], _ => true
  | _ :: _, [] => false
  | a :: as, b :: bs => a = b && charsPrefixOf as bs

/-- `charsContain p l` decides whether `p` occurs contiguously in `l`. -/
def charsContain (pat : List Char) : List Char → Bool
  | [] => pat.isEmpty
  | c :: rest => charsPrefixOf pat (c :: rest) || charsContain pat rest

/-- Model of Python `pat in s` on strings. -/
def strContains (s pat : String) : Bool :=
  charsContain pat.data s.data

/-- Model of Python `any(word in s for word in pats)`. -/
def containsAny (s : String) (pats : List String) : Bool :=
  pats.any (fun p => strContains s p)

/-- Model of Python `str.split(sep)` for a single-newline separator:
splits at every newline, keeping empty pieces. -/
def splitLinesAux (acc : List Char) : List Char → List String
  | [] => [String.mk acc.reverse]
  | c :: rest =>
    if c = '\n' then String.mk acc.reverse :: splitLinesAux [] rest
    else splitLinesAux (c :: acc) rest

/-- Model of Python `message.split('\n')`. -/
def splitLines (s : String) : List String :=
  splitLinesAux [] s.data

/-- Split at the first occurrence of a character: model of Python
`line.split(c, 1)` (`none` exactly when `c not in line`). -/
def splitAtFirst (c : Char) : List Char → Option (List Char × List Char)
  | [] => none
  | x :: xs =>
    if x = c then some ([], xs)
    else
      match splitAtFirst c xs with
      | none => none
      | some (l, r) => some (x :: l, r)

/-- Model of Python `line.split(':', 1)` guarded by `':' in line`. -/
def splitFirstColon (line : String) : Option (String × String) :=
  match splitAtFirst ':' line.data with
  | none => none
  | some (l, r) => some (String.mk l, String.mk r)

/-- Python truthiness of an optional string (`None` and `""` are falsy). -/
def optTruthy (o : Option String) : Bool :=
  !(o.getD "").isEmpty

/-! ### Data model (`shared_types.py`) -/

/-- `AirlineAgentContext` (`shared_types.py`), restricted to the fields the
orchestration code reads or writes.  The `validator` that stringifies
numeric `account_number` / `user_registration_id` values is reflected by
typing them as strings. -/
structure AirlineAgentContext where
  passenger_name : Option String := none
  account_number : Option String := none
  customer_id : Option String := none
  customer_email : Option String := none
  is_conference_attendee : Bool := false
  conference_name : Option String := none
  user_company_name : Option String := none
  user_location : Option String := none
  user_registration_id : Option String := none
  user_conference_package : Option String := none
  user_primary_stream : Option String := none
  user_secondary_stream : Option String := none
deriving DecidableEq, Repr

/-- `RelevanceOutput` (`shared_types.py`). -/
structure RelevanceOutput where
  reasoning : String
  is_relevant : Bool
deriving DecidableEq, Repr

/-- `JailbreakOutput` (`shared_types.py`). -/
structure JailbreakOutput where
  reasoning : String
  is_safe : Bool
deriving DecidableEq, Repr

/-! ### Guardrails (`main.py`) -/

/-- `conference_keywords` in `relevance_guardrail` (`main.py`). -/
def conference_keywords : List String :=
  ["conference", "session", "speaker", "schedule", "attendee", "business",
   "networking", "track", "room", "event", "presentation", "workshop",
   "company", "organization", "meeting", "agenda", "registration"]

/-- `general_keywords` in `relevance_guardrail` (`main.py`). -/
def general_keywords : List String :=
  ["hello", "hi", "help", "what", "how", "when", "where", "who", "can you"]

/-- `relevance_guardrail` (`main.py`): keyword-based relevance check. -/
def relevance_guardrail (user_input : String) : RelevanceOutput :=
  let user_input_lower := lowerString user_input
  let is_relevant := containsAny user_input_lower conference_keywords
  let is_general := containsAny user_input_lower general_keywords
  if is_relevant || is_general then
    { reasoning := "User input is related to conference assistance or is a general inquiry.",
      is_relevant := true }
  else
    { reasoning := "User input does not appear to be related to conference assistance.",
      is_relevant := false }

/-- `jailbreak_patterns` in `jailbreak_guardrail` (`main.py`). -/
def jailbreak_patterns : List String :=
  ["ignore", "system", "prompt", "instruction", "override", "bypass",
   "pretend", "roleplay", "act as", "forget", "disregard"]

/-- `jailbreak_guardrail` (`main.py`): instruction-override check. -/
def jailbreak_guardrail (user_input : String) : JailbreakOutput :=
  let user_input_lower := lowerString user_input
  let is_jailbreak := containsAny user_input_lower jailbreak_patterns
  { reasoning :=
      if is_jailbreak then "Detected potential jailbreak attempt."
      else "No jailbreak patterns detected.",
    is_safe := !is_jailbreak }

/-! ### Backend records and the abstract data-access capability -/

/-- One conference-session record as returned by
`db_client.get_conference_schedule` (`database.py` is an excluded
collaborator; a field is `none` when the dictionary key is missing). -/
structure SessionRecord where
  topic : Option String := none
  speaker_name : Option String := none
  start_time : Option String := none
  end_time : Option String := none
  conference_room_name : Option String := none
  track_name : Option String := none
  conference_date : Option String := none
  description : Option String := none
deriving DecidableEq, Repr

/-- One attendee record (`details` dictionary) as consumed by
`search_attendees_tool` and `get_user_businesses_tool`. -/
structure AttendeeRecord where
  id : Option String := none
  user_name : Option String := none
  firstName : Option String := none
  lastName : Option String := none
  company : Option String := none
  location : Option String := none
  primary_stream : Option String := none
  secondary_stream : Option String := none
  conference_package : Option String := none
deriving DecidableEq, Repr

/-- One business record (`details` dictionary) as consumed by
`search_businesses_tool` and `get_user_businesses_tool`. -/
structure BusinessRecord where
  companyName : Option String := none
  industrySector : Option String := none
  subSector : Option String := none
  location : Option String := none
  positionTitle : Option String := none
  briefDescription : Option String := none
  productsOrServices : Option String := none
  web : Option String := none
deriving DecidableEq, Repr

/-- The `business_details` dictionary built by `add_business_tool`
(`main.py`): nine mandatory fields plus the `web` key that is only present
when `website` is truthy. -/
structure BusinessDetails where
  companyName : String
  industrySector : String
  subSector : String
  location : String
  positionTitle : String
  legalStructure : String
  establishmentYear : String
  productsOrServices : String
  briefDescription : String
  web : Option String
deriving DecidableEq, Repr

/-- A user/customer record as returned by `db_client.get_user_by_registration_id`
or `db_client.get_user_by_qr_code` and consumed by the context seeding in
`chat_endpoint` (`api.py`). -/
structure CustomerRecord where
  name : Option String := none
  id : Option String := none
  account_number : Option String := none
  email : Option String := none
  is_conference_attendee : Option Bool := none
  conference_name : Option String := none
  location : Option String := none
  registration_id : Option String := none
  conference_package : Option String := none
  primary_stream : Option String := none
  secondary_stream : Option String := none
  company : Option String := none
deriving DecidableEq, Repr

/-- One invocation of the abstract data-access capability, recorded by the
embedded tools so that theorems can speak about which backend queries a
request performed and with which parameters.  `addBusiness` is the only
write. -/
inductive DbCall where
  | getSchedule (speaker_name topic conference_room_name track_name conference_date : Option String)
  | getUserDetailsByName (name : String)
  | getAllAttendees (limit : Nat)
  | searchBusinesses (query sector location : Option String)
  | getUserBusinesses (user_id : Option String)
  | addBusiness (user_id : String) (details : BusinessDetails)
deriving DecidableEq, Repr

/-- The abstract asynchronous data-access capability (`db_client`), modelled
as a record of pure total functions; the orchestration core only observes
returned values. -/
structure Database where
  get_conference_schedule :
    Option String → Option String → Option String → Option String → Option String →
      List SessionRecord
  get_user_details_by_name : String → List AttendeeRecord
  get_all_attendees : Nat → List AttendeeRecord
  search_businesses : Option String → Option String → Option String → List BusinessRecord
  get_user_businesses : Option String → List BusinessRecord
  add_business : String → BusinessDetails → Bool
  get_user_by_registration_id : String → Option CustomerRecord
  get_user_by_qr_code : String → Option CustomerRecord

/-! ### Schedule formatting helpers (`get_conference_schedule_tool`) -/

/-- Decimal digit test for the date/time parsing models. -/
def isDigitChar (c : Char) : Bool :=
  '0' ≤ c && c ≤ '9'

/-- Numeric value of two digit characters. -/
def twoDigits (a b : Char) : Nat :=
  (a.toNat - 48) * 10 + (b.toNat - 48)

/-- Model of `datetime.strptime(s, "%Y-%m-%d")`: `none` on a malformed
date string (the Python code turns that `ValueError` into an error reply). -/
def parseDateYMD (s : String) : Option (Nat × Nat × Nat) :=
  match s.data with
  | [y1, y2, y3, y4, d1, m1, m2, d2, a1, a2] =>
    if isDigitChar y1 && isDigitChar y2 && isDigitChar y3 && isDigitChar y4 &&
        d1 = '-' && isDigitChar m1 && isDigitChar m2 &&
        d2 = '-' && isDigitChar a1 && isDigitChar a2 &&
        1 ≤ twoDigits m1 m2 && twoDigits m1 m2 ≤ 12 &&
        1 ≤ twoDigits a1 a2 && twoDigits a1 a2 ≤ 31 then
      some (((y1.toNat - 48) * 1000 + (y2.toNat - 48) * 100 + twoDigits y3 y4),
            twoDigits m1 m2, twoDigits a1 a2)
    else none
  | _ => none

/-- Model of `datetime.fromisoformat(t.replace('Z', '+00:00'))` restricted to
the hour and minute fields that `strftime('%I:%M %p')` renders: `none` when
the string is not an ISO timestamp (the Python call would raise). -/
def parseIsoHourMin (t : String) : Option (Nat × Nat) :=
  match t.data with
  | y1 :: y2 :: y3 :: y4 :: s1 :: m1 :: m2 :: s2 :: d1 :: d2 :: tc :: h1 :: h2 :: c1 :: n1 :: n2 :: _ =>
    if isDigitChar y1 && isDigitChar y2 && isDigitChar y3 && isDigitChar y4 &&
        s1 = '-' && isDigitChar m1 && isDigitChar m2 && s2 = '-' &&
        isDigitChar d1 && isDigitChar d2 && tc = 'T' &&
        isDigitChar h1 && isDigitChar h2 && c1 = ':' &&
        isDigitChar n1 && isDigitChar n2 &&
        twoDigits h1 h2 < 24 && twoDigits n1 n2 < 60 then
      some (twoDigits h1 h2, twoDigits n1 n2)
    else none
  | _ => none

/-- Zero-padded two-digit rendering, as `strftime` produces. -/
def pad2 (n : Nat) : String :=
  if n < 10 then "0" ++ toString n else toString n

/-- Model of `strftime('%I:%M %p')` on an hour/minute pair. -/
def clock12 (h m : Nat) : String :=
  let h12 := if h % 12 = 0 then 12 else h % 12
  pad2 h12 ++ ":" ++ pad2 m ++ " " ++ (if h < 12 then "AM" else "PM")

/-- The per-time-string formatting step of `get_conference_schedule_tool`:
strings containing `'T'` are parsed as ISO timestamps and rendered as a
12-hour clock; `none` models the exception raised on an unparseable
T-containing string. -/
def formatClock (t : String) : Option String :=
  if strContains t "T" then
    match parseIsoHourMin t with
    | none => none
    | some (h, m) => some (clock12 h m)
  else some t

/-- One session block of the formatted schedule reply, `none` when a time
field raises during formatting. -/
def formatScheduleSession (s : SessionRecord) : Option String :=
  match formatClock (s.start_time.getD "TBD"), formatClock (s.end_time.getD "TBD") with
  | some start_time, some end_time =>
    some ("**" ++ s.topic.getD "Unknown Topic" ++ "**\n" ++
      "Speaker: " ++ s.speaker_name.getD "TBD" ++ "\n" ++
      "Time: " ++ start_time ++ " - " ++ end_time ++ "\n" ++
      "Room: " ++ s.conference_room_name.getD "TBD" ++ "\n" ++
      "Track: " ++ s.track_name.getD "TBD" ++ "\n" ++
      "Date: " ++ s.conference_date.getD "TBD" ++ "\n" ++
      (match s.description with
       | some d => if d.isEmpty then "" else "Description: " ++ d ++ "\n"
       | none => "") ++ "\n")
  | _, _ => none

/-! ### Tools (`main.py`) -/

/-- `get_conference_schedule_tool` (`main.py`): validates the date filter,
queries the backend, and formats either the "no sessions" reply naming every
applied filter or one block per session. -/
def get_conference_schedule_tool (db : Database) (_ctx : AirlineAgentContext)
    (speaker_name topic conference_room_name track_name conference_date : Option String) :
    String × List DbCall :=
  let dateOk : Bool :=
    match conference_date with
    | none => true
    | some d => (parseDateYMD d).isSome
  if !dateOk then
    ("Invalid date format: " ++ conference_date.getD "" ++ ". Please use YYYY-MM-DD format.", [])
  else
    let schedule :=
      db.get_conference_schedule speaker_name topic conference_room_name track_name conference_date
    let call := [DbCall.getSchedule speaker_name topic conference_room_name track_name conference_date]
    if schedule.isEmpty then
      let filters :=
        (if optTruthy speaker_name then ["speaker '" ++ speaker_name.getD "" ++ "'"] else []) ++
        (if optTruthy topic then ["topic '" ++ topic.getD "" ++ "'"] else []) ++
        (if optTruthy conference_room_name then ["room '" ++ conference_room_name.getD "" ++ "'"] else []) ++
        (if optTruthy track_name then ["track '" ++ track_name.getD "" ++ "'"] else []) ++
        (if optTruthy conference_date then ["date '" ++ conference_date.getD "" ++ "'"] else [])
      let filter_text := if filters.isEmpty then "your criteria" else String.intercalate " and " filters
      ("No conference sessions found for " ++ filter_text ++ ".", call)
    else
      let blocks := schedule.map formatScheduleSession
      if blocks.all Option.isSome then
        ("Found " ++ toString schedule.length ++ " conference session(s):\n\n" ++
          String.join (blocks.map (fun o => o.getD "")), call)
      else
        ("Error retrieving conference schedule: invalid isoformat string", call)

/-- The `user_name` computation of `search_attendees_tool`:
`details.get('user_name') or f"{firstName} {lastName}".strip()`. -/
def attendeeDisplayName (a : AttendeeRecord) : String :=
  if optTruthy a.user_name then a.user_name.getD ""
  else stripString (a.firstName.getD "" ++ " " ++ a.lastName.getD "")

/-- One attendee block of the formatted attendee reply. -/
def formatAttendee (a : AttendeeRecord) : String :=
  "**" ++ attendeeDisplayName a ++ "**\n" ++
  (if optTruthy a.company then "Company: " ++ a.company.getD "" ++ "\n" else "") ++
  (if optTruthy a.location then "Location: " ++ a.location.getD "" ++ "\n" else "") ++
  (if optTruthy a.primary_stream then "Primary Stream: " ++ a.primary_stream.getD "" ++ "\n" else "") ++
  (if optTruthy a.secondary_stream then "Secondary Stream: " ++ a.secondary_stream.getD "" ++ "\n" else "") ++
  (if optTruthy a.conference_package then "Conference Package: " ++ a.conference_package.getD "" ++ "\n" else "") ++
  "\n"

/-- `search_attendees_tool` (`main.py`). -/
def search_attendees_tool (db : Database) (_ctx : AirlineAgentContext)
    (name : Option String) (limit : Nat) : String × List DbCall :=
  match name with
  | some n =>
    let attendees := db.get_user_details_by_name n
    let call := [DbCall.getUserDetailsByName n]
    if attendees.isEmpty then
      ("No attendees found named '" ++ n ++ "'.", call)
    else
      ("Found " ++ toString attendees.length ++ " attendee(s):\n\n" ++
        String.join (attendees.map formatAttendee), call)
  | none =>
    let attendees := db.get_all_attendees limit
    let call := [DbCall.getAllAttendees limit]
    if attendees.isEmpty then
      ("No attendees found in the conference.", call)
    else
      ("Found " ++ toString attendees.length ++ " attendee(s):\n\n" ++
        String.join (attendees.map formatAttendee), call)

/-- One business block of the `search_businesses_tool` reply. -/
def formatBusiness (b : BusinessRecord) : String :=
  "**" ++ b.companyName.getD "Unknown Company" ++ "**\n" ++
  (if optTruthy b.industrySector then "Industry: " ++ b.industrySector.getD "" ++ "\n" else "") ++
  (if optTruthy b.subSector then "Sub-sector: " ++ b.subSector.getD "" ++ "\n" else "") ++
  (if optTruthy b.location then "Location: " ++ b.location.getD "" ++ "\n" else "") ++
  (if optTruthy b.briefDescription then "Description: " ++ b.briefDescription.getD "" ++ "\n" else "") ++
  (if optTruthy b.productsOrServices then "Products/Services: " ++ b.productsOrServices.getD "" ++ "\n" else "") ++
  (if optTruthy b.web then "Website: " ++ b.web.getD "" ++ "\n" else "") ++
  "\n"

/-- `search_businesses_tool` (`main.py`). -/
def search_businesses_tool (db : Database) (_ctx : AirlineAgentContext)
    (query sector location : Option String) : String × List DbCall :=
  let businesses := db.search_businesses query sector location
  let call := [DbCall.searchBusinesses query sector location]
  if businesses.isEmpty then
    let filters :=
      (if optTruthy query then ["query '" ++ query.getD "" ++ "'"] else []) ++
      (if optTruthy sector then ["sector '" ++ sector.getD "" ++ "'"] else []) ++
      (if optTruthy location then ["location '" ++ location.getD "" ++ "'"] else [])
    let filter_text := if filters.isEmpty then "your criteria" else String.intercalate " and " filters
    ("No businesses found for " ++ filter_text ++ ".", call)
  else
    ("Found " ++ toString businesses.length ++ " business(es):\n\n" ++
      String.join (businesses.map formatBusiness), call)

/-- One business block of the `get_user_businesses_tool` reply (uses
`positionTitle` instead of `productsOrServices`). -/
def formatUserBusiness (b : BusinessRecord) : String :=
  "**" ++ b.companyName.getD "Unknown Company" ++ "**\n" ++
  (if optTruthy b.industrySector then "Industry: " ++ b.industrySector.getD "" ++ "\n" else "") ++
  (if optTruthy b.subSector then "Sub-sector: " ++ b.subSector.getD "" ++ "\n" else "") ++
  (if optTruthy b.location then "Location: " ++ b.location.getD "" ++ "\n" else "") ++
  (if optTruthy b.positionTitle then "Position: " ++ b.positionTitle.getD "" ++ "\n" else "") ++
  (if optTruthy b.briefDescription then "Description: " ++ b.briefDescription.getD "" ++ "\n" else "") ++
  (if optTruthy b.web then "Website: " ++ b.web.getD "" ++ "\n" else "") ++
  "\n"

/-- `get_user_businesses_tool` (`main.py`): with no `user_name` it uses the
session's `customer_id` (Python truthiness: `None` or `""` yields the fixed
"no user" reply without any backend call). -/
def get_user_businesses_tool (db : Database) (ctx : AirlineAgentContext)
    (user_name : Option String) : String × List DbCall :=
  if !optTruthy user_name then
    if !optTruthy ctx.customer_id then
      ("No user specified and no current user context available.", [])
    else
      let user_id := ctx.customer_id
      let businesses := db.get_user_businesses user_id
      let call := [DbCall.getUserBusinesses user_id]
      if businesses.isEmpty then
        ("No businesses found for the current user.", call)
      else
        ("Found " ++ toString businesses.length ++ " business(es) for the current user:\n\n" ++
          String.join (businesses.map formatUserBusiness), call)
  else
    let n := user_name.getD ""
    let users := db.get_user_details_by_name n
    match users with
    | [] => ("No user found with name '" ++ n ++ "'.", [DbCall.getUserDetailsByName n])
    | u :: _ =>
      let user_id := u.id
      let businesses := db.get_user_businesses user_id
      let calls := [DbCall.getUserDetailsByName n, DbCall.getUserBusinesses user_id]
      if businesses.isEmpty then
        ("No businesses found for " ++ n ++ ".", calls)
      else
        ("Found " ++ toString businesses.length ++ " business(es) for " ++ n ++ ":\n\n" ++
          String.join (businesses.map formatUserBusiness), calls)

/-- `display_business_form_tool` (`main.py`): the sentinel instructing the
caller to render the registration form; performs no backend call. -/
def display_business_form_tool (_ctx : AirlineAgentContext) : String × List DbCall :=
  ("DISPLAY_BUSINESS_FORM", [])

/-- Success reply of `add_business_tool`, naming the company. -/
def add_business_success_reply (company_name : String) : String :=
  "Successfully added business '" ++ company_name ++
    "' to your profile. The business is now listed in the business directory and available for networking."

/-- Failure reply of `add_business_tool`, instructing a retry. -/
def add_business_failure_reply (company_name : String) : String :=
  "Failed to add business '" ++ company_name ++ "'. Please try again or contact support."

/-- `add_business_tool` (`main.py`): requires a truthy `customer_id`, builds
the details dictionary (the `web` key only for a truthy website), performs
the single `add_business` write and reports success or failure. -/
def add_business_tool (db : Database) (ctx : AirlineAgentContext)
    (company_name industry_sector sub_sector location position_title legal_structure
      establishment_year products_or_services brief_description : String)
    (website : Option String) : String × List DbCall :=
  if !optTruthy ctx.customer_id then
    ("Unable to add business: No user context available.", [])
  else
    let user_id := (ctx.customer_id).getD ""
    let details : BusinessDetails :=
      { companyName := company_name, industrySector := industry_sector,
        subSector := sub_sector, location := location,
        positionTitle := position_title, legalStructure := legal_structure,
        establishmentYear := establishment_year,
        productsOrServices := products_or_services,
        briefDescription := brief_description,
        web := match website with
          | some w => if w.isEmpty then none else some w
          | none => none }
    if db.add_business user_id details then
      (add_business_success_reply company_name, [DbCall.addBusiness user_id details])
    else
      (add_business_failure_reply company_name, [DbCall.addBusiness user_id details])

/-! ### Agents and the structured business-form parser (`api.py`) -/

/-- The three registered agents. -/
inductive AgentName where
  | triage
  | schedule
  | networking
deriving DecidableEq, Repr

/-- The `name` attribute of each agent (`main.py`). -/
def agentDisplayName : AgentName → String
  | .triage => "Triage Agent"
  | .schedule => "Schedule Agent"
  | .networking => "Networking Agent"

/-- `next((a for a in all_agents if a.name == current_agent_name), triage_agent)`
(`api.py`): resolve a stored agent name, defaulting to Triage. -/
def agentByName (s : String) : AgentName :=
  if s = "Triage Agent" then .triage
  else if s = "Schedule Agent" then .schedule
  else if s = "Networking Agent" then .networking
  else .triage

/-- The `business_data` dictionary accumulated by the structured
form-submission parser in `execute_agent_with_tools` (`api.py`); a field is
`none` while its key has not been assigned. -/
structure BusinessData where
  company_name : Option String := none
  industry_sector : Option String := none
  sub_sector : Option String := none
  location : Option String := none
  position_title : Option String := none
  legal_structure : Option String := none
  establishment_year : Option String := none
  products_or_services : Option String := none
  brief_description : Option String := none
  website : Option String := none
deriving DecidableEq, Repr

/-- One iteration of the form-parsing loop in `execute_agent_with_tools`
(`api.py`): a line without a colon is skipped; otherwise the key (stripped,
lowercased) selects which field the stripped value overwrites. -/
def applyBusinessLine (bd : BusinessData) (line : String) : BusinessData :=
  match splitFirstColon line with
  | none => bd
  | some (k, v) =>
    let key := lowerString (stripString k)
    let value := stripString v
    if strContains key "company name" then { bd with company_name := some value }
    else if strContains key "industry sector" then { bd with industry_sector := some value }
    else if strContains key "sub-sector" || strContains key "sub sector" then
      { bd with sub_sector := some value }
    else if strContains key "location" then { bd with location := some value }
    else if strContains key "position title" then { bd with position_title := some value }
    else if strContains key "legal structure" then { bd with legal_structure := some value }
    else if strContains key "establishment year" then { bd with establishment_year := some value }
    else if strContains key "products/services" || strContains key "products or services" then
      { bd with products_or_services := some value }
    else if strContains key "brief description" then { bd with brief_description := some value }
    else if strContains key "website" then { bd with website := some value }
    else bd

/-- The whole form-submission parse: fold the line parser over
`message.split('\n')`. -/
def parse_business_data (message : String) : BusinessData :=
  (splitLines message).foldl applyBusinessLine {}

/-- `len(business_data)`: how many of the ten recognized fields parsed. -/
def businessDataCount (bd : BusinessData) : Nat :=
  ([bd.company_name, bd.industry_sector, bd.sub_sector, bd.location,
    bd.position_title, bd.legal_structure, bd.establishment_year,
    bd.products_or_services, bd.brief_description, bd.website].countP
      (fun o => o.isSome))

/-- The details dictionary `add_business_tool` builds from a parsed
submission: missing mandatory fields default to `''`
(`business_data.get(key, '')`), the `web` key exists only for a truthy
website. -/
def businessDetailsOf (bd : BusinessData) : BusinessDetails :=
  { companyName := bd.company_name.getD "", industrySector := bd.industry_sector.getD "",
    subSector := bd.sub_sector.getD "", location := bd.location.getD "",
    positionTitle := bd.position_title.getD "", legalStructure := bd.legal_structure.getD "",
    establishmentYear := bd.establishment_year.getD "",
    productsOrServices := bd.products_or_services.getD "",
    briefDescription := bd.brief_description.getD "",
    web := match bd.website with
      | some w => if w.isEmpty then none else some w
      | none => none }

/-- The literal business-form submission marker phrase (`api.py`). -/
def business_form_marker : String :=
  "i want to add my business with the following details:"

/-- The mojibake bullet prefixing each line of the two specialist help
texts (`api.py` stores the bullet in this decoded form). -/
def helpBullet : String := "‚Ä¢"

/-- Fallback reply of the Schedule agent when no schedule keyword matched
(`api.py`). -/
def schedule_agent_help : String :=
  "I can help you find conference schedule information. You can ask me about:\n\n" ++
  helpBullet ++ " Sessions by date - \"What's happening on July 15th?\" or \"Events on July 16th\"\n" ++
  helpBullet ++ " Sessions by speaker - \"Show me sessions by Alice Wonderland\"\n" ++
  helpBullet ++ " Sessions by topic - \"Find AI sessions\" or \"Show me Cloud sessions\"\n" ++
  helpBullet ++ " Sessions by room - \"What's in the Grand Ballroom?\"\n" ++
  helpBullet ++ " Sessions by track - \"Show me Data Science track\" or \"AI & ML sessions\"\n\n" ++
  "What specific schedule information are you looking for?"

/-- Fallback reply of the Networking agent when no networking keyword
matched (`api.py`). -/
def networking_agent_help : String :=
  "I can help you with networking and business connections. You can ask me to:\n\n" ++
  helpBullet ++ " Find attendees - \"Find attendees from Chennai\" or \"Show me all attendees\"\n" ++
  helpBullet ++ " Search businesses - \"Find healthcare businesses\" or \"Show me IT companies\"\n" ++
  helpBullet ++ " Get business info - \"Show me businesses in Mumbai\" or \"Tell me about my business\"\n" ++
  helpBullet ++ " Add your business - \"I want to add my business\"\n\n" ++
  "What networking assistance do you need?"

/-- Capability overview returned for the Triage agent (and any unmatched
agent) (`api.py`). -/
def triage_agent_overview : String :=
  "I'm your conference assistant for Business Conference 2025. I can help you with:\n\n" ++
  "üóìÔ∏è Conference Schedule - Find sessions, speakers, timings, and rooms\n" ++
  "ü§ù Networking - Connect with attendees and explore business opportunities\n\n" ++
  "What would you like to know about the conference?"

/-- The Schedule agent's pattern chain in `execute_agent_with_tools`
(`api.py`), entered once a schedule query word matched: dates, then
speakers, then topics, then tracks, then rooms, else the unfiltered query. -/
def scheduleDispatch (db : Database) (ctx : AirlineAgentContext) (ml : String) :
    String × List DbCall :=
  if strContains ml "july 15" || strContains ml "2025-07-15" || strContains ml "15th" then
    get_conference_schedule_tool db ctx none none none none (some "2025-07-15")
  else if strContains ml "july 16" || strContains ml "2025-07-16" || strContains ml "16th" then
    get_conference_schedule_tool db ctx none none none none (some "2025-07-16")
  else if strContains ml "september" || strContains ml "sept" then
    get_conference_schedule_tool db ctx none none none none (some "2025-09-01")
  else if strContains ml "alice" then
    get_conference_schedule_tool db ctx (some "Alice Wonderland") none none none none
  else if strContains ml "bob" then
    get_conference_schedule_tool db ctx (some "Bob The Builder") none none none none
  else if strContains ml "charlie" then
    get_conference_schedule_tool db ctx (some "Charlie Chaplin") none none none none
  else if strContains ml "diana" then
    get_conference_schedule_tool db ctx (some "Diana Prince") none none none none
  else if strContains ml "ai" || strContains ml "artificial intelligence" then
    get_conference_schedule_tool db ctx none (some "AI") none none none
  else if strContains ml "cloud" then
    get_conference_schedule_tool db ctx none (some "Cloud") none none none
  else if strContains ml "data" then
    get_conference_schedule_tool db ctx none (some "Data") none none none
  else if strContains ml "web" then
    get_conference_schedule_tool db ctx none (some "Web") none none none
  else if strContains ml "security" || strContains ml "cybersecurity" then
    get_conference_schedule_tool db ctx none (some "Security") none none none
  else if strContains ml "ai & ml" || strContains ml "ai ml" || strContains ml "machine learning" then
    get_conference_schedule_tool db ctx none none none (some "AI & ML") none
  else if strContains ml "data science" then
    get_conference_schedule_tool db ctx none none none (some "Data Science") none
  else if strContains ml "cloud computing" then
    get_conference_schedule_tool db ctx none none none (some "Cloud Computing") none
  else if strContains ml "web development" then
    get_conference_schedule_tool db ctx none none none (some "Web Development") none
  else if strContains ml "cybersecurity" then
    get_conference_schedule_tool db ctx none none none (some "Cybersecurity") none
  else if strContains ml "product management" then
    get_conference_schedule_tool db ctx none none none (some "Product Management") none
  else if strContains ml "startup" || strContains ml "entrepreneurship" then
    get_conference_schedule_tool db ctx none none none (some "Startup & Entrepreneurship") none
  else if strContains ml "grand ballroom" then
    get_conference_schedule_tool db ctx none none (some "Grand Ballroom") none none
  else if strContains ml "executive suite" then
    get_conference_schedule_tool db ctx none none (some "Executive Suite 1") none none
  else if strContains ml "breakout room" then
    get_conference_schedule_tool db ctx none none (some "Breakout Room A") none none
  else if strContains ml "innovation hub" then
    get_conference_schedule_tool db ctx none none (some "Innovation Hub") none none
  else if strContains ml "networking lounge" then
    get_conference_schedule_tool db ctx none none (some "Networking Lounge") none none
  else
    get_conference_schedule_tool db ctx none none none none none

/-- The business-query chain of the Networking agent (`api.py`): sectors
(Healthcare first, then the bare-substring `"it"`/Technology test), then
the four cities, then the own-business lookup, then the add/register
sentinel, else the unfiltered business search. -/
def businessQueryDispatch (db : Database) (ctx : AirlineAgentContext) (ml : String) :
    String × List DbCall :=
  if strContains ml "healthcare" then
    search_businesses_tool db ctx none (some "Healthcare") none
  else if strContains ml "it" || strContains ml "technology" then
    search_businesses_tool db ctx none (some "Technology") none
  else if strContains ml "finance" then
    search_businesses_tool db ctx none (some "Finance") none
  else if strContains ml "manufacturing" then
    search_businesses_tool db ctx none (some "Manufacturing") none
  else if strContains ml "mumbai" then
    search_businesses_tool db ctx none none (some "Mumbai")
  else if strContains ml "chennai" then
    search_businesses_tool db ctx none none (some "Chennai")
  else if strContains ml "delhi" then
    search_businesses_tool db ctx none none (some "Delhi")
  else if strContains ml "bangalore" || strContains ml "bengaluru" then
    search_businesses_tool db ctx none none (some "Bangalore")
  else if strContains ml "my business" || strContains ml "tell me about my business" then
    get_user_businesses_tool db ctx none
  else if strContains ml "add" && strContains ml "business" then
    display_business_form_tool ctx
  else
    search_businesses_tool db ctx none none none

/-- The attendee-query chain of the Networking agent (`api.py`). -/
def attendeeDispatch (db : Database) (ctx : AirlineAgentContext) (ml : String) :
    String × List DbCall :=
  if strContains ml "chennai" then search_attendees_tool db ctx (some "Chennai") 10
  else if strContains ml "mumbai" then search_attendees_tool db ctx (some "Mumbai") 10
  else if strContains ml "delhi" then search_attendees_tool db ctx (some "Delhi") 10
  else if strContains ml "bangalore" || strContains ml "bengaluru" then
    search_attendees_tool db ctx (some "Bangalore") 10
  else if strContains ml "all" then search_attendees_tool db ctx none 20
  else search_attendees_tool db ctx none 10

/-- The schedule-query entry words of `execute_agent_with_tools` (`api.py`). -/
def schedule_query_words : List String :=
  ["events", "sessions", "schedule", "find", "show", "what"]

/-- The business-query entry words of `execute_agent_with_tools` (`api.py`). -/
def business_query_words : List String :=
  ["business", "company", "companies"]

/-- The attendee-query entry words of `execute_agent_with_tools` (`api.py`). -/
def attendee_query_words : List String :=
  ["attendee", "attendees", "people", "participant", "participants"]

/-- `execute_agent_with_tools` (`api.py`): the deterministic tool
dispatcher.  For the Networking agent the structured form submission is
checked first and only invokes `add_business_tool` when at least eight of
the ten recognized fields parsed; otherwise control falls through to the
keyword chains, then to the per-agent fallback text. -/
def execute_agent_with_tools (db : Database) (agent : AgentName)
    (ctx : AirlineAgentContext) (message : String) : String × List DbCall :=
  match agent with
  | .schedule =>
    let message_lower := lowerString message
    if containsAny message_lower schedule_query_words then
      scheduleDispatch db ctx message_lower
    else
      (schedule_agent_help, [])
  | .networking =>
    let message_lower := lowerString message
    let formResult : Option (String × List DbCall) :=
      if strContains message_lower business_form_marker then
        let bd := parse_business_data message
        if 8 ≤ businessDataCount bd then
          some (add_business_tool db ctx (bd.company_name.getD "")
            (bd.industry_sector.getD "") (bd.sub_sector.getD "") (bd.location.getD "")
            (bd.position_title.getD "") (bd.legal_structure.getD "")
            (bd.establishment_year.getD "") (bd.products_or_services.getD "")
            (bd.brief_description.getD "") bd.website)
        else none
      else none
    match formResult with
    | some r => r
    | none =>
      if containsAny message_lower business_query_words then
        businessQueryDispatch db ctx message_lower
      else if containsAny message_lower attendee_query_words then
        attendeeDispatch db ctx message_lower
      else
        (networking_agent_help, [])
  | .triage =>
    (triage_agent_overview, [])

/-! ### Intent router (`api.py`, `chat_endpoint`) -/

/-- The schedule-domain routing terms (`api.py`): note the only month names
are `"july"` and `"september"`. -/
def schedule_route_terms : List String :=
  ["schedule", "session", "speaker", "event", "track", "room", "date", "time",
   "july", "september", "find sessions", "show sessions"]

/-- The networking-domain routing terms (`api.py`). -/
def networking_route_terms : List String :=
  ["business", "attendee", "networking", "company", "people", "participant"]

/-- The routing rules of `chat_endpoint` (`api.py`): form-submission marker
first, then schedule terms, then networking terms, else Triage.  Pure in
the message; the session's current agent is not consulted. -/
def route (message : String) : AgentName :=
  let message_lower := lowerString message
  if strContains message_lower business_form_marker then .networking
  else if containsAny message_lower schedule_route_terms then .schedule
  else if containsAny message_lower networking_route_terms then .networking
  else .triage

/-! ### Session store and orchestrator (`api.py`, `chat_endpoint`) -/

/-- One exchanged message record (`{"content": ..., "agent": ...}`). -/
structure MessageRecord where
  content : String
  agent : String
deriving DecidableEq, Repr

/-- One stored conversation entry of the global `conversations` map:
serialized context, current agent name, message history, raised events
(events are opaque payloads; this code never appends any). -/
structure StoredConversation where
  context : AirlineAgentContext
  current_agent : String
  messages : List MessageRecord
  events : List String
deriving DecidableEq, Repr

/-- The global `conversations` dictionary, keyed by conversation id. -/
def ConvStore := List (String × StoredConversation)

/-- Dictionary membership/read of the conversation store. -/
def storeLookup (store : ConvStore) (cid : String) : Option StoredConversation :=
  match store with
  | [] => none
  | (k, v) :: rest => if k = cid then some v else storeLookup rest cid

/-- Dictionary write of the conversation store
(`conversations[conversation_id] = ...`, last-writer-wins). -/
def storeSave (store : ConvStore) (cid : String) (conv : StoredConversation) : ConvStore :=
  (cid, conv) :: (List.filter (fun p => p.1 ≠ cid) store)

/-- One serialized guardrail verdict (`serialize_guardrail_check`,
`api.py`); the random `id` and wall-clock `timestamp` of the Python record
are environment effects and are not modelled. -/
structure GuardrailRecord where
  name : String
  input : String
  reasoning : String
  passed : Bool
deriving DecidableEq, Repr

/-- `serialize_guardrail_check` (`api.py`) minus id/timestamp. -/
def serialize_guardrail_check (name : String) (passed : Bool) (reasoning : String) :
    GuardrailRecord :=
  { name := name, input := "", reasoning := reasoning, passed := passed }

/-- `load_user_context` (`api.py`): registration-id lookup first, then QR
code; `none` when both miss. -/
def load_user_context (db : Database) (identifier : String) : Option CustomerRecord :=
  match db.get_user_by_registration_id identifier with
  | some user => some user
  | none => db.get_user_by_qr_code identifier

/-- The default context of a brand-new conversation (`api.py`). -/
def freshContext : AirlineAgentContext :=
  { is_conference_attendee := true, conference_name := some "Business Conference 2025" }

/-- The context-seeding block of `chat_endpoint` (`api.py`) run exactly once
at session creation when an account reference resolves to a customer. -/
def seedContext (base : AirlineAgentContext) (customer : CustomerRecord) :
    AirlineAgentContext :=
  { base with
    passenger_name := customer.name
    customer_id := customer.id
    account_number := some (customer.account_number.getD "")
    customer_email := customer.email
    is_conference_attendee := customer.is_conference_attendee.getD true
    conference_name := some (customer.conference_name.getD "Business Conference 2025")
    user_location := customer.location
    user_registration_id := some (customer.registration_id.getD "")
    user_conference_package := customer.conference_package
    user_primary_stream := customer.primary_stream
    user_secondary_stream := customer.secondary_stream
    user_company_name := customer.company }

/-- The load-or-create step of `chat_endpoint` (`api.py`): a known id
returns the stored entry untouched (`is_new = false`); an unknown id builds
a fresh Triage session, seeded from the account reference only when one is
supplied (Python truthiness) and resolves. -/
def get_or_create (db : Database) (store : ConvStore) (conversation_id : String)
    (account_number : Option String) : StoredConversation × Bool :=
  match storeLookup store conversation_id with
  | some conversation => (conversation, false)
  | none =>
    let context :=
      if optTruthy account_number then
        match load_user_context db (account_number.getD "") with
        | some customer => seedContext freshContext customer
        | none => freshContext
      else freshContext
    ({ context := context, current_agent := "Triage Agent", messages := [], events := [] },
     true)

/-- The decoded request record (`ChatRequest`, `api.py`). -/
structure ChatRequest where
  message : String
  conversation_id : Option String := none
  account_number : Option String := none
deriving DecidableEq, Repr

/-- The decoded response record (`ChatResponse`, `api.py`), restricted to
the fields the orchestration logic computes; `agents` (the static registry
snapshot) and `events` (always empty here) carry no per-request state. -/
structure ChatResponse where
  conversation_id : String
  current_agent : String
  messages : List MessageRecord
  context : AirlineAgentContext
  guardrails : List GuardrailRecord
  customer_info : Option CustomerRecord
deriving DecidableEq, Repr

/-- Everything one request produces: the updated store, the response, and
the backend calls performed by tool dispatch. -/
structure ChatOutcome where
  store : ConvStore
  response : ChatResponse
  trace : List DbCall

/-- The fixed refusal reply of both guardrail failure paths (`api.py`). -/
def refusal_message : String :=
  "Sorry, I can only answer questions related to conference assistance."

/-- `request.conversation_id or str(uuid.uuid4())` (`api.py`); `genId`
stands for the freshly generated UUID. -/
def resolveConversationId (req : ChatRequest) (genId : String) : String :=
  if (req.conversation_id.getD "").isEmpty then genId else req.conversation_id.getD ""

/-- `messages[-1:]` (`api.py`). -/
def lastMessageSlice (messages : List MessageRecord) : List MessageRecord :=
  match messages.getLast? with
  | some m => [m]
  | none => []

/-- `customer_info` of the response: loaded only when an account reference
was supplied (`api.py`). -/
def responseCustomerInfo (db : Database) (req : ChatRequest) : Option CustomerRecord :=
  if optTruthy req.account_number then load_user_context db (req.account_number.getD "")
  else none

/-- `chat_endpoint` (`api.py`), one full request/response cycle:
load-or-create the session, short-circuit on an empty message, run the
relevance then the jailbreak guardrail (each refusal path appends the fixed
refusal, persists, and returns the verdicts gathered so far), route, run
tool dispatch, persist, and answer with the latest message and an empty
guardrail list (the pass-through return hands `guardrails=[]` to the
transport layer). -/
def chat_endpoint (db : Database) (store : ConvStore) (genId : String)
    (req : ChatRequest) : ChatOutcome :=
  let conversation_id := resolveConversationId req genId
  let conversation := (get_or_create db store conversation_id req.account_number).1
  let context := conversation.context
  let current_agent := agentByName conversation.current_agent
  let messages := conversation.messages
  let events := conversation.events
  if (stripString req.message).isEmpty then
    { store := storeSave store conversation_id
        { context := context, current_agent := agentDisplayName current_agent,
          messages := messages, events := events },
      response :=
        { conversation_id := conversation_id,
          current_agent := agentDisplayName current_agent,
          messages := lastMessageSlice messages,
          context := context, guardrails := [],
          customer_info := responseCustomerInfo db req },
      trace := [] }
  else
    let relevance_result := relevance_guardrail req.message
    let relevance_record :=
      serialize_guardrail_check "relevance_guardrail" relevance_result.is_relevant
        relevance_result.reasoning
    if !relevance_result.is_relevant then
      let messages2 := messages ++
        [{ content := refusal_message, agent := agentDisplayName current_agent }]
      { store := storeSave store conversation_id
          { context := context, current_agent := agentDisplayName current_agent,
            messages := messages2, events := events },
        response :=
          { conversation_id := conversation_id,
            current_agent := agentDisplayName current_agent,
            messages := [{ content := refusal_message, agent := agentDisplayName current_agent }],
            context := context, guardrails := [relevance_record],
            customer_info := responseCustomerInfo db req },
        trace := [] }
    else
      let jailbreak_result := jailbreak_guardrail req.message
      let jailbreak_record :=
        serialize_guardrail_check "jailbreak_guardrail" jailbreak_result.is_safe
          jailbreak_result.reasoning
      if !jailbreak_result.is_safe then
        let messages2 := messages ++
          [{ content := refusal_message, agent := agentDisplayName current_agent }]
        { store := storeSave store conversation_id
            { context := context, current_agent := agentDisplayName current_agent,
              messages := messages2, events := events },
          response :=
            { conversation_id := conversation_id,
              current_agent := agentDisplayName current_agent,
              messages := [{ content := refusal_message, agent := agentDisplayName current_agent }],
              context := context, guardrails := [relevance_record, jailbreak_record],
              customer_info := responseCustomerInfo db req },
          trace := [] }
      else
        let destination := route req.message
        let result := execute_agent_with_tools db destination context req.message
        let messages2 := messages ++
          [{ content := result.1, agent := agentDisplayName destination }]
        { store := storeSave store conversation_id
            { context := context, current_agent := agentDisplayName destination,
              messages := messages2, events := events },
          response :=
            { conversation_id := conversation_id,
              current_agent := agentDisplayName destination,
              messages := lastMessageSlice messages2,
              context := context, guardrails := [],
              customer_info := responseCustomerInfo db req },
          trace := result.2 }

/-! ### Concrete instances used by witnesses and counterexamples -/

/-- A backend with no data: every query returns nothing and the single
write operation reports failure. -/
def dbEmpty : Database :=
  { get_conference_schedule := fun _ _ _ _ _ => []
    get_user_details_by_name := fun _ => []
    get_all_attendees := fun _ => []
    search_businesses := fun _ _ _ => []
    get_user_businesses := fun _ => []
    add_business := fun _ _ => false
    get_user_by_registration_id := fun _ => none
    get_user_by_qr_code := fun _ => none }

/-- Same empty backend, but the business-registration write succeeds. -/
def dbAddTrue : Database :=
  { dbEmpty with add_business := fun _ _ => true }

/-- A session context carrying a user id, as after identity seeding. -/
def ctxWithUser : AirlineAgentContext :=
  { freshContext with customer_id := some "user-1" }

/-- A complete ten-field structured business submission. -/
def submissionAllFields : String :=
  "i want to add my business with the following details:\n" ++
  "Company Name: Acme Corp\n" ++
  "Industry Sector: Technology\n" ++
  "Sub-sector: Software\n" ++
  "Location: Mumbai\n" ++
  "Position Title: CEO\n" ++
  "Legal Structure: LLC\n" ++
  "Establishment Year: 2020\n" ++
  "Products/Services: SaaS\n" ++
  "Brief Description: Cloud software\n" ++
  "Website: acme.example"

/-- A malformed structured submission: the marker phrase plus a single
recognized field. -/
def submissionMalformed : String :=
  "i want to add my business with the following details:\ncompany name: acme"

/-- A stored Triage conversation used to exercise existing-session paths. -/
def storedTriageConversation : StoredConversation :=
  { context := freshContext, current_agent := "Triage Agent", messages := [], events := [] }

/-- A one-entry conversation store. -/
def storeWithS1 : ConvStore :=
  [("s1", storedTriageConversation)]

/-- The conversation state `chat_endpoint` starts from: the stored entry
for the resolved conversation id, or the freshly created one. -/
def preConversation (db : Database) (store : ConvStore) (genId : String)
    (req : ChatRequest) : StoredConversation :=
  (get_or_create db store (resolveConversationId req genId) req.account_number).1

/-! ### Helper lemmas -/

theorem charsPrefixOf_iff (p l : List Char) : charsPrefixOf p l = true ↔ p <+: l := by
  induction p generalizing l with
  | nil => simp [charsPrefixOf]
  | cons a as ih =>
    cases l with
    | nil => simp [charsPrefixOf]
    | cons b bs => simp [charsPrefixOf, List.cons_prefix_cons, ih]

theorem charsContain_iff (p l : List Char) : charsContain p l = true ↔ p <:+: l := by
  induction l with
  | nil => simp [charsContain, List.isEmpty_iff]
  | cons c rest ih => simp [charsContain, charsPrefixOf_iff, ih, List.infix_cons_iff]

/-- Substring containment is transitive (Python `in`): if `m` occurs in `s`
and `p` occurs in `m`, then `p` occurs in `s`. -/
theorem strContains_trans {s m p : String} (h1 : strContains s m = true)
    (h2 : strContains m p = true) : strContains s p = true := by
  rw [strContains, charsContain_iff] at h1 h2 ⊢
  exact h2.trans h1

/-- Reading back the entry a save just wrote. -/
theorem storeLookup_storeSave_self (store : ConvStore) (cid : String)
    (conv : StoredConversation) : storeLookup (storeSave store cid conv) cid = some conv := by
  simp [storeSave, storeLookup]

/-- `messages[-1:]` of a history that just received a message is exactly
that message. -/
theorem lastMessageSlice_concat (l : List MessageRecord) (m : MessageRecord) :
    lastMessageSlice (l ++ [m]) = [m] := by
  simp [lastMessageSlice]

/-- Component view of the guardrail-passing path of `chat_endpoint`: when
the message is non-blank and both checks pass, the reply is the dispatch
result of the routed agent, the current agent becomes the routed agent, and
the response's guardrail list is empty. -/
theorem chat_endpoint_pass (db : Database) (store : ConvStore) (genId : String)
    (req : ChatRequest)
    (hmsg : (stripString req.message).isEmpty = false)
    (hrel : (relevance_guardrail req.message).is_relevant = true)
    (hjb : (jailbreak_guardrail req.message).is_safe = true) :
    (chat_endpoint db store genId req).trace =
      (execute_agent_with_tools db (route req.message)
        (preConversation db store genId req).context req.message).2 ∧
    (chat_endpoint db store genId req).response.messages =
      [{ content := (execute_agent_with_tools db (route req.message)
           (preConversation db store genId req).context req.message).1,
         agent := agentDisplayName (route req.message) }] ∧
    (chat_endpoint db store genId req).response.current_agent =
      agentDisplayName (route req.message) ∧
    (chat_endpoint db store genId req).response.guardrails = [] := by
  simp [chat_endpoint, hmsg, hrel, hjb, preConversation, lastMessageSlice_concat]

/-! ### C1 -/

/-- C1.  The claim says the message "i want to add my business" yields the
`DISPLAY_BUSINESS_FORM` sentinel.  The router does select Networking, but
in `execute_agent_with_tools` the `"my business"` branch (own-business
lookup) is tested before the `"add" and "business"` branch, so the message
is answered by `get_user_businesses_tool`, not by the sentinel — here the
fresh session has no user id, so the reply is the fixed "no user" text and
no backend call (in particular no write) is performed.  This contradicts
the agent's own instructions in `main.py`
("'I want to add my business' -> use display_business_form"). -/
theorem c1_add_my_business_divergence :
    route "i want to add my business" = AgentName.networking ∧
    execute_agent_with_tools dbEmpty AgentName.networking freshContext
      "i want to add my business" =
      ("No user specified and no current user context available.", []) ∧
    (chat_endpoint dbEmpty storeWithS1 "gid-1"
      { message := "i want to add my business", conversation_id := some "s1" }).response.messages =
      [{ content := "No user specified and no current user context available.",
         agent := "Networking Agent" }] ∧
    (chat_endpoint dbEmpty storeWithS1 "gid-1"
      { message := "i want to add my business", conversation_id := some "s1" }).trace = [] ∧
    ("No user specified and no current user context available." : String) ≠
      "DISPLAY_BUSINESS_FORM" := by
  decide

/-! ### C6 -/

/-- C6 counterexample.  The claim promises Schedule for any message with an
explicit month name (and no form marker): the message "march" contains the
month name March and no form marker, yet the router sends it to Triage —
the router's term list only knows the months July and September. -/
theorem c6_month_name_counterexample :
    strContains (lowerString "march") business_form_marker = false ∧
    route "march" = AgentName.triage ∧
    AgentName.triage ≠ AgentName.schedule := by
  decide

/-- C6 (amended): for every message that does not contain the form marker
and whose lowercased text contains one of the router's schedule-domain
terms — schedule, session, speaker, event, track, room, date, time, the
month names July or September, or the phrases "find sessions" /
"show sessions" — the destination is the Schedule agent. -/
theorem c6_schedule_terms_route (message : String)
    (hmark : strContains (lowerString message) business_form_marker = false)
    (hterm : containsAny (lowerString message) schedule_route_terms = true) :
    route message = AgentName.schedule := by
  simp [route, hmark, hterm]

/-- Witness for C6: "What time is the keynote" contains the schedule term
"time" and no form marker, and routes to Schedule. -/
theorem c6_schedule_terms_route_witness :
    strContains (lowerString "What time is the keynote") business_form_marker = false ∧
    containsAny (lowerString "What time is the keynote") schedule_route_terms = true ∧
    route "What time is the keynote" = AgentName.schedule := by
  refine ⟨by decide, by decide, ?_⟩
  exact c6_schedule_terms_route "What time is the keynote" (by decide) (by decide)

/-! ### C8 -/

/-- C8.  Resolving an existing session id returns the stored entry
unchanged with `is_new = false`, and the result does not depend on the
external account reference (no re-seeding); in particular two consecutive
resolutions of the same id yield the identical context and message
history. -/
theorem c8_get_or_create_stable (db : Database) (store : ConvStore) (cid : String)
    (acct acct2 : Option String) (conv : StoredConversation)
    (h : storeLookup store cid = some conv) :
    get_or_create db store cid acct = (conv, false) ∧
    get_or_create db store cid acct = get_or_create db store cid acct2 := by
  simp [get_or_create, h]

/-- Witness for C8 at a concrete one-entry store and two different account
references. -/
theorem c8_get_or_create_stable_witness :
    storeLookup storeWithS1 "s1" = some storedTriageConversation ∧
    get_or_create dbEmpty storeWithS1 "s1" (some "ACC-1") =
      (storedTriageConversation, false) ∧
    get_or_create dbEmpty storeWithS1 "s1" (some "ACC-1") =
      get_or_create dbEmpty storeWithS1 "s1" none := by
  refine ⟨by decide, ?_, ?_⟩
  · exact (c8_get_or_create_stable dbEmpty storeWithS1 "s1" (some "ACC-1") none
      storedTriageConversation (by decide)).1
  · exact (c8_get_or_create_stable dbEmpty storeWithS1 "s1" (some "ACC-1") none
      storedTriageConversation (by decide)).2

/-! ### C10 -/

/-- C10.  In the Networking dispatcher's business branch the
Technology-sector test matches the bare substring "it" and precedes the
city-location tests: any message entering the business branch (a business
query word, no successful form submission) whose lowercased text lacks
"healthcare" but contains "it" anywhere — even inside another word — is
dispatched as a Technology-sector business search. -/
theorem c10_bare_it_technology (db : Database) (ctx : AirlineAgentContext)
    (message : String)
    (hmark : strContains (lowerString message) business_form_marker = false)
    (hbiz : containsAny (lowerString message) business_query_words = true)
    (hhc : strContains (lowerString message) "healthcare" = false)
    (hit : strContains (lowerString message) "it" = true) :
    execute_agent_with_tools db AgentName.networking ctx message =
      search_businesses_tool db ctx none (some "Technology") none := by
  simp [execute_agent_with_tools, businessQueryDispatch, hmark, hbiz, hhc, hit]

/-- Witness for C10: "companies in the city of mumbai" contains "it" only
inside "city" and also names a city, yet is dispatched as a
Technology-sector search (not a Mumbai-location search). -/
theorem c10_bare_it_technology_witness :
    containsAny (lowerString "companies in the city of mumbai") business_query_words = true ∧
    strContains (lowerString "companies in the city of mumbai") "it" = true ∧
    strContains (lowerString "companies in the city of mumbai") "mumbai" = true ∧
    execute_agent_with_tools dbEmpty AgentName.networking freshContext
      "companies in the city of mumbai" =
      ("No businesses found for sector 'Technology'.",
       [DbCall.searchBusinesses none (some "Technology") none]) := by
  refine ⟨by decide, by decide, by decide, ?_⟩
  have h := c10_bare_it_technology dbEmpty freshContext "companies in the city of mumbai"
    (by decide) (by decide) (by decide) (by decide)
  rw [h]
  decide

/-! ### C2 -/

/-- C2.  For the message "Find AI sessions" with no prior session, the
router selects Schedule, the dispatcher issues the schedule query with the
topic filter "AI" and no other filter, and when the backend returns zero
matching sessions the reply is exactly
"No conference sessions found for topic 'AI'.". -/
theorem c2_find_ai_sessions (db : Database) (store : ConvStore) (genId : String)
    (hnew : storeLookup store genId = none)
    (hdb : db.get_conference_schedule none (some "AI") none none none = []) :
    route "Find AI sessions" = AgentName.schedule ∧
    (chat_endpoint db store genId { message := "Find AI sessions" }).trace =
      [DbCall.getSchedule none (some "AI") none none none] ∧
    (chat_endpoint db store genId { message := "Find AI sessions" }).response.current_agent =
      "Schedule Agent" ∧
    (chat_endpoint db store genId { message := "Find AI sessions" }).response.messages =
      [{ content := "No conference sessions found for topic 'AI'.",
         agent := "Schedule Agent" }] := by
  have hpre : preConversation db store genId { message := "Find AI sessions" } =
      { context := freshContext, current_agent := "Triage Agent",
        messages := [], events := [] } := by
    unfold preConversation
    rw [show resolveConversationId { message := "Find AI sessions" } genId = genId from rfl]
    simp [get_or_create, hnew, optTruthy]
    exact fun h => absurd h (by decide)
  have hexec : execute_agent_with_tools db (route "Find AI sessions") freshContext
      "Find AI sessions" =
      ("No conference sessions found for topic 'AI'.",
       [DbCall.getSchedule none (some "AI") none none none]) := by
    have hroute : route "Find AI sessions" = AgentName.schedule := by decide
    rw [hroute]
    simp only [execute_agent_with_tools]
    rw [if_pos (by decide)]
    simp only [scheduleDispatch]
    rw [if_neg (by decide), if_neg (by decide), if_neg (by decide), if_neg (by decide),
        if_neg (by decide), if_neg (by decide), if_neg (by decide), if_pos (by decide)]
    simp only [get_conference_schedule_tool, hdb]
    decide
  obtain ⟨ht, hm, hc, _⟩ := chat_endpoint_pass db store genId { message := "Find AI sessions" }
    (by decide) (by decide) (by decide)
  rw [hpre] at ht hm
  refine ⟨by decide, ?_, ?_, ?_⟩
  · rw [ht]
    simp only [hexec]
  · rw [hc]
    decide
  · rw [hm]
    simp only [hexec]
    decide

/-- Witness for C2 at the empty store and the empty backend. -/
theorem c2_find_ai_sessions_witness :
    storeLookup ([] : ConvStore) "gid-2" = none ∧
    dbEmpty.get_conference_schedule none (some "AI") none none none = [] ∧
    (chat_endpoint dbEmpty [] "gid-2" { message := "Find AI sessions" }).trace =
      [DbCall.getSchedule none (some "AI") none none none] ∧
    (chat_endpoint dbEmpty [] "gid-2" { message := "Find AI sessions" }).response.messages =
      [{ content := "No conference sessions found for topic 'AI'.",
         agent := "Schedule Agent" }] := by
  have h := c2_find_ai_sessions dbEmpty [] "gid-2" rfl rfl
  exact ⟨rfl, rfl, h.2.1, h.2.2.2⟩

/-! ### C3 -/

/-- C3.  Every message the pipeline processes (Python truthiness of
`message.strip()`, the orchestrator's own emptiness test) whose lowercased
text contains no conference-domain term and no general-conversation term
fails the relevance check: the safety check is skipped (the verdict list
carries only the relevance verdict), the reply is the fixed refusal string,
no backend call happens, and the session's current agent — a registered
agent name by the session invariant — is unchanged both in the response and
in the persisted session. -/
theorem c3_irrelevant_refusal (db : Database) (store : ConvStore) (genId : String)
    (req : ChatRequest)
    (hmsg : (stripString req.message).isEmpty = false)
    (hconf : containsAny (lowerString req.message) conference_keywords = false)
    (hgen : containsAny (lowerString req.message) general_keywords = false)
    (hreg : agentDisplayName (agentByName (preConversation db store genId req).current_agent) =
      (preConversation db store genId req).current_agent) :
    (chat_endpoint db store genId req).response.messages =
      [{ content := refusal_message,
         agent := (preConversation db store genId req).current_agent }] ∧
    (chat_endpoint db store genId req).response.guardrails =
      [serialize_guardrail_check "relevance_guardrail" false
        "User input does not appear to be related to conference assistance."] ∧
    (chat_endpoint db store genId req).response.current_agent =
      (preConversation db store genId req).current_agent ∧
    (chat_endpoint db store genId req).trace = [] ∧
    storeLookup (chat_endpoint db store genId req).store (resolveConversationId req genId) =
      some { context := (preConversation db store genId req).context,
             current_agent := (preConversation db store genId req).current_agent,
             messages := (preConversation db store genId req).messages ++
               [{ content := refusal_message,
                  agent := (preConversation db store genId req).current_agent }],
             events := (preConversation db store genId req).events } := by
  have hro : relevance_guardrail req.message =
      { reasoning := "User input does not appear to be related to conference assistance.",
        is_relevant := false } := by
    simp [relevance_guardrail, hconf, hgen]
  simp only [preConversation] at hreg
  simp [chat_endpoint, hmsg, hro, serialize_guardrail_check, preConversation,
    storeLookup_storeSave_self, hreg]

/-- Witness for C3: the message "xyzzy" contains no recognized term; the
stored Triage session stays on Triage and receives the refusal. -/
theorem c3_irrelevant_refusal_witness :
    (stripString "xyzzy").isEmpty = false ∧
    containsAny (lowerString "xyzzy") conference_keywords = false ∧
    containsAny (lowerString "xyzzy") general_keywords = false ∧
    (chat_endpoint dbEmpty storeWithS1 "gid-3"
      { message := "xyzzy", conversation_id := some "s1" }).response.messages =
      [{ content := refusal_message, agent := "Triage Agent" }] ∧
    (chat_endpoint dbEmpty storeWithS1 "gid-3"
      { message := "xyzzy", conversation_id := some "s1" }).response.guardrails =
      [serialize_guardrail_check "relevance_guardrail" false
        "User input does not appear to be related to conference assistance."] ∧
    (chat_endpoint dbEmpty storeWithS1 "gid-3"
      { message := "xyzzy", conversation_id := some "s1" }).response.current_agent =
      "Triage Agent" := by
  have h := c3_irrelevant_refusal dbEmpty storeWithS1 "gid-3"
    { message := "xyzzy", conversation_id := some "s1" } (by decide) (by decide) (by decide)
    (by decide)
  have hpre : (preConversation dbEmpty storeWithS1 "gid-3"
      { message := "xyzzy", conversation_id := some "s1" }).current_agent =
      "Triage Agent" := by decide
  rw [hpre] at h
  exact ⟨by decide, by decide, by decide, h.1, h.2.1, h.2.2.1⟩

/-! ### C4 -/

/-- C4 counterexample.  The claim says every executed guardrail check's
verdict appears in the response's guardrail list even when both checks pass
and dispatch proceeds.  For "find ai sessions" both checks execute and
pass, dispatch proceeds (a reply is produced), yet the pass-through return
of `chat_endpoint` hands `guardrails = []` to the transport layer. -/
theorem c4_pass_path_counterexample :
    (relevance_guardrail "find ai sessions").is_relevant = true ∧
    (jailbreak_guardrail "find ai sessions").is_safe = true ∧
    (chat_endpoint dbEmpty [] "gid-4c" { message := "find ai sessions" }).response.messages ≠
      [] ∧
    (chat_endpoint dbEmpty [] "gid-4c" { message := "find ai sessions" }).response.guardrails =
      [] := by
  decide

/-- C4 (amended): for every processed message, the verdicts of the checks
that executed appear in the response's guardrail list on both
short-circuit paths (relevance failure: the relevance verdict; safety
failure: relevance then safety), but when both checks pass and dispatch
proceeds the response's guardrail list is empty. -/
theorem c4_guardrail_records (db : Database) (store : ConvStore) (genId : String)
    (req : ChatRequest)
    (hmsg : (stripString req.message).isEmpty = false) :
    ((relevance_guardrail req.message).is_relevant = false →
      (chat_endpoint db store genId req).response.guardrails =
        [serialize_guardrail_check "relevance_guardrail" false
          (relevance_guardrail req.message).reasoning]) ∧
    ((relevance_guardrail req.message).is_relevant = true →
      (jailbreak_guardrail req.message).is_safe = false →
      (chat_endpoint db store genId req).response.guardrails =
        [serialize_guardrail_check "relevance_guardrail" true
          (relevance_guardrail req.message).reasoning,
         serialize_guardrail_check "jailbreak_guardrail" false
          (jailbreak_guardrail req.message).reasoning]) ∧
    ((relevance_guardrail req.message).is_relevant = true →
      (jailbreak_guardrail req.message).is_safe = true →
      (chat_endpoint db store genId req).response.guardrails = []) := by
  refine ⟨fun h1 => ?_, fun h1 h2 => ?_, fun h1 h2 => ?_⟩ <;>
    simp [chat_endpoint, hmsg, h1]
  · simp [h2]
  · simp [h2]

/-- Witness for C4 covering all three amended cases at concrete inputs. -/
theorem c4_guardrail_records_witness :
    (stripString "xyzzy").isEmpty = false ∧
    (chat_endpoint dbEmpty [] "gid-4a" { message := "xyzzy" }).response.guardrails =
      [serialize_guardrail_check "relevance_guardrail" false
        (relevance_guardrail "xyzzy").reasoning] ∧
    (chat_endpoint dbEmpty [] "gid-4b" { message := "ignore the conference schedule" }).response.guardrails =
      [serialize_guardrail_check "relevance_guardrail" true
        (relevance_guardrail "ignore the conference schedule").reasoning,
       serialize_guardrail_check "jailbreak_guardrail" false
        (jailbreak_guardrail "ignore the conference schedule").reasoning] ∧
    (chat_endpoint dbEmpty [] "gid-4d" { message := "find ai sessions" }).response.guardrails =
      [] := by
  refine ⟨by decide, ?_, ?_, ?_⟩
  · exact (c4_guardrail_records dbEmpty [] "gid-4a" { message := "xyzzy" }
      (by decide)).1 (by decide)
  · exact (c4_guardrail_records dbEmpty [] "gid-4b"
      { message := "ignore the conference schedule" } (by decide)).2.1 (by decide) (by decide)
  · exact (c4_guardrail_records dbEmpty [] "gid-4d" { message := "find ai sessions" }
      (by decide)).2.2 (by decide) (by decide)

/-! ### C5 -/

/-- C5.  Every structured submission (the marker phrase plus colon-delimited
lines) in which at least eight of the ten recognized fields parse, sent in
a session whose context carries a (truthy) user id, routes to Networking
and invokes `add_business` exactly once with the ten parsed parameter
values; a true backend result yields the success reply naming the company
and a false result yields the failure reply instructing a retry — in both
cases the recorded call is the single write. -/
theorem c5_structured_submission (db : Database) (ctx : AirlineAgentContext)
    (message uid : String)
    (huid : ctx.customer_id = some uid) (huidne : uid ≠ "")
    (hmark : strContains (lowerString message) business_form_marker = true)
    (hcount : 8 ≤ businessDataCount (parse_business_data message)) :
    route message = AgentName.networking ∧
    execute_agent_with_tools db AgentName.networking ctx message =
      (if db.add_business uid (businessDetailsOf (parse_business_data message)) then
        (add_business_success_reply ((parse_business_data message).company_name.getD ""),
         [DbCall.addBusiness uid (businessDetailsOf (parse_business_data message))])
      else
        (add_business_failure_reply ((parse_business_data message).company_name.getD ""),
         [DbCall.addBusiness uid (businessDetailsOf (parse_business_data message))])) := by
  have hne : uid.isEmpty = false := by
    cases h : uid.isEmpty
    · rfl
    · exact absurd ((String.isEmpty_iff uid).mp h) huidne
  have htruthy : optTruthy (some uid) = true := by
    simp [optTruthy, hne]
  refine ⟨by simp [route, hmark], ?_⟩
  simp [execute_agent_with_tools, hmark, hcount, add_business_tool, huid, htruthy,
    businessDetailsOf]

/-- Witness for C5: the full ten-field submission with a succeeding backend
write produces the success reply naming "Acme Corp". -/
theorem c5_structured_submission_witness :
    ctxWithUser.customer_id = some "user-1" ∧
    strContains (lowerString submissionAllFields) business_form_marker = true ∧
    8 ≤ businessDataCount (parse_business_data submissionAllFields) ∧
    execute_agent_with_tools dbAddTrue AgentName.networking ctxWithUser submissionAllFields =
      (add_business_success_reply "Acme Corp",
       [DbCall.addBusiness "user-1" (businessDetailsOf (parse_business_data submissionAllFields))]) := by
  refine ⟨rfl, by decide, by decide, ?_⟩
  have h := (c5_structured_submission dbAddTrue ctxWithUser submissionAllFields "user-1"
    rfl (by decide) (by decide) (by decide)).2
  rw [h]
  decide

/-! ### C7 -/

/-- C7.  For every processed message that passes the relevance check, the
safety check fails exactly when the lowercased message contains one of the
fixed instruction-override terms; on failure the reply is the fixed refusal
string and the response's verdict list is the relevance verdict followed by
the safety verdict. -/
theorem c7_safety_check (db : Database) (store : ConvStore) (genId : String)
    (req : ChatRequest)
    (hmsg : (stripString req.message).isEmpty = false)
    (hrel : (relevance_guardrail req.message).is_relevant = true) :
    ((jailbreak_guardrail req.message).is_safe = false ↔
      containsAny (lowerString req.message) jailbreak_patterns = true) ∧
    (containsAny (lowerString req.message) jailbreak_patterns = true →
      (chat_endpoint db store genId req).response.messages =
        [{ content := refusal_message,
           agent := (chat_endpoint db store genId req).response.current_agent }] ∧
      (chat_endpoint db store genId req).response.guardrails =
        [serialize_guardrail_check "relevance_guardrail" true
          (relevance_guardrail req.message).reasoning,
         serialize_guardrail_check "jailbreak_guardrail" false
          "Detected potential jailbreak attempt."]) := by
  constructor
  · simp [jailbreak_guardrail]
  · intro hjb
    have hjo : jailbreak_guardrail req.message =
        { reasoning := "Detected potential jailbreak attempt.", is_safe := false } := by
      simp [jailbreak_guardrail, hjb]
    simp [chat_endpoint, hmsg, hrel, hjo, serialize_guardrail_check]

/-- Witness for C7: "ignore the conference schedule" passes relevance
(contains "conference") and contains the override term "ignore". -/
theorem c7_safety_check_witness :
    (stripString "ignore the conference schedule").isEmpty = false ∧
    (relevance_guardrail "ignore the conference schedule").is_relevant = true ∧
    containsAny (lowerString "ignore the conference schedule") jailbreak_patterns = true ∧
    (jailbreak_guardrail "ignore the conference schedule").is_safe = false ∧
    (chat_endpoint dbEmpty storeWithS1 "gid-7"
      { message := "ignore the conference schedule", conversation_id := some "s1" }).response.guardrails =
      [serialize_guardrail_check "relevance_guardrail" true
        (relevance_guardrail "ignore the conference schedule").reasoning,
       serialize_guardrail_check "jailbreak_guardrail" false
        "Detected potential jailbreak attempt."] ∧
    (chat_endpoint dbEmpty storeWithS1 "gid-7"
      { message := "ignore the conference schedule", conversation_id := some "s1" }).response.messages =
      [{ content := refusal_message,
         agent := (chat_endpoint dbEmpty storeWithS1 "gid-7"
           { message := "ignore the conference schedule", conversation_id := some "s1" }).response.current_agent }] := by
  have h := c7_safety_check dbEmpty storeWithS1 "gid-7"
    { message := "ignore the conference schedule", conversation_id := some "s1" }
    (by decide) (by decide)
  have h2 := h.2 (by decide)
  exact ⟨by decide, by decide, by decide, h.1.mpr (by decide), h2.2, h2.1⟩

/-! ### C9 -/

/-- C9 counterexample.  The claim says a malformed submission (marker
phrase, fewer than eight fields, no sector or city keyword elsewhere) is
answered with the own-business lookup.  In fact the marker's word "with"
contains the substring "it", and the Technology test precedes the
"my business" test, so the malformed submission is answered by a
Technology-sector business search, not the own-business lookup. -/
theorem c9_malformed_submission_counterexample :
    strContains (lowerString submissionMalformed) business_form_marker = true ∧
    businessDataCount (parse_business_data submissionMalformed) = 1 ∧
    execute_agent_with_tools dbEmpty AgentName.networking freshContext submissionMalformed =
      ("No businesses found for sector 'Technology'.",
       [DbCall.searchBusinesses none (some "Technology") none]) ∧
    execute_agent_with_tools dbEmpty AgentName.networking freshContext submissionMalformed ≠
      get_user_businesses_tool dbEmpty freshContext none := by
  decide

/-- C9 (amended): for every message containing the marker phrase in which
fewer than eight recognized fields parse, `add_business` is never invoked —
dispatch falls through to the keyword business rules — and, because the
marker's own word "with" contains "it", any such message without
"healthcare" is answered by the Technology-sector business search (the
"it" test precedes the "my business" test), not the own-business lookup. -/
theorem c9_malformed_submission (db : Database) (ctx : AirlineAgentContext)
    (message : String)
    (hmark : strContains (lowerString message) business_form_marker = true)
    (hcount : businessDataCount (parse_business_data message) < 8)
    (hhc : strContains (lowerString message) "healthcare" = false) :
    execute_agent_with_tools db AgentName.networking ctx message =
      search_businesses_tool db ctx none (some "Technology") none ∧
    ∀ u d, DbCall.addBusiness u d ∉
      (execute_agent_with_tools db AgentName.networking ctx message).2 := by
  have hbiz : strContains (lowerString message) "business" = true :=
    strContains_trans hmark (by decide)
  have hit : strContains (lowerString message) "it" = true :=
    strContains_trans hmark (by decide)
  have hbizany : containsAny (lowerString message) business_query_words = true := by
    simp [containsAny, business_query_words, hbiz]
  have hmain : execute_agent_with_tools db AgentName.networking ctx message =
      search_businesses_tool db ctx none (some "Technology") none := by
    simp [execute_agent_with_tools, businessQueryDispatch, hmark, hbizany, hhc, hit,
      Nat.not_le.mpr hcount]
  refine ⟨hmain, fun u d => ?_⟩
  rw [hmain]
  simp only [search_businesses_tool]
  by_cases hempty : (db.search_businesses none (some "Technology") none).isEmpty = true <;>
    simp [hempty]

/-- Witness for C9 at the concrete malformed submission and the empty
backend. -/
theorem c9_malformed_submission_witness :
    strContains (lowerString submissionMalformed) business_form_marker = true ∧
    businessDataCount (parse_business_data submissionMalformed) < 8 ∧
    execute_agent_with_tools dbEmpty AgentName.networking ctxWithUser submissionMalformed =
      search_businesses_tool dbEmpty ctxWithUser none (some "Technology") none ∧
    ∀ u d, DbCall.addBusiness u d ∉
      (execute_agent_with_tools dbEmpty AgentName.networking ctxWithUser submissionMalformed).2 := by
  have h := c9_malformed_submission dbEmpty ctxWithUser submissionMalformed
    (by decide) (by decide) (by decide)
  exact ⟨by decide, by decide, h.1, h.2⟩

end ConferenceBackend
